import Mathlib

/-!
Verification of the projectile-motion core model (`src/js/common/model/Projectile.js`,
`src/js/common/model/Tracer.js`) against its natural-language specification.

The JavaScript numeric state is embedded with real numbers; fallible lookups are
embedded with `Option`.  Definitions follow the source line by line; a few
collaborator pieces whose source files are not in the repository snapshot
(`DataPoint`, the gravity and minor-dot constants, `Util.toFixedNumber`) are
modelled from the specification and marked as such.
-/

open Real

open scoped Classical

set_option maxHeartbeats 1000000

/-- Modelled from the spec: `DataPoint.js` is not in the snapshot.  A recorded
sample: {time, position (x, y), `isApex` flag} (spec §3, "Sample").  The
`Projectile.step` of the snapshot constructs data points with the apex flag
unset. -/
structure DataPoint where
  time : ℝ
  x : ℝ
  y : ℝ
  apex : Bool

/-- Modelled from the spec: `DataPoint.distanceXY` lives in the missing
`DataPoint.js`; the spec (§4.5) describes the nearest-point scan as computing
Euclidean distance from a sample to the query point. -/
noncomputable def DataPoint.distanceXY (p : DataPoint) (x y : ℝ) : ℝ :=
  Real.sqrt ((p.x - x) ^ 2 + (p.y - y) ^ 2)

/-- Modelled from the spec: the snapshot's `ProjectileMotionConstants.js` lacks
`ACCELERATION_DUE_TO_GRAVITY`; the spec (§4.2, §8) uses the standard value
g = 9.81. -/
noncomputable def ACCELERATION_DUE_TO_GRAVITY : ℝ := 9.81

/-- `SENSING_RADIUS = 0.2` — Tracer.js line 23. -/
noncomputable def SENSING_RADIUS : ℝ := 0.2

/-- The slice of `ProjectileMotionModel` that `Projectile.step` reads:
`airResistanceOn` and `altitude`. -/
structure ModelEnv where
  airResistanceOn : Bool
  altitude : ℝ

/-- Mutable fields of a `Projectile` (PropertySet fields plus the plain
fields), together with its recorded `dataPoints`. -/
structure ProjectileState where
  totalTime : ℝ
  x : ℝ
  y : ℝ
  mass : ℝ
  diameter : ℝ
  dragCoefficient : ℝ
  xVelocity : ℝ
  yVelocity : ℝ
  velocity : ℝ
  xAcceleration : ℝ
  yAcceleration : ℝ
  reachedGround : Bool
  dataPoints : List DataPoint

/-- The air-density computation of `Projectile.step` (Projectile.js lines
82–112): the NASA piecewise atmosphere when air resistance is on, 0 when it is
off. -/
noncomputable def airDensityOf (airResistanceOn : Bool) (altitude : ℝ) : ℝ :=
  if airResistanceOn then
    if altitude < 11000 then
      -- troposphere
      let temperature := 15.04 - 0.00649 * altitude
      let pressure := 101.29 * (((temperature + 273.1) / 288.08) ^ (5.256 : ℝ))
      pressure / (0.2869 * (temperature + 273.1))
    else if altitude < 25000 then
      -- lower stratosphere
      let temperature := (-56.46 : ℝ)
      let pressure := 22.65 * Real.exp (1.73 - 0.000157 * altitude)
      pressure / (0.2869 * (temperature + 273.1))
    else
      -- upper stratosphere (altitude >= 25000 meters)
      let temperature := -131.21 + 0.00299 * altitude
      let pressure := 2.488 * (((temperature + 273.1) / 216.6) ^ ((-11.388 : ℝ)))
      pressure / (0.2869 * (temperature + 273.1))
  else 0

/-- `var area = Math.PI * this.diameter * this.diameter / 4` (Projectile.js
line 115). -/
noncomputable def areaOf (s : ProjectileState) : ℝ :=
  Real.pi * s.diameter * s.diameter / 4

/-- `dragForceX` (Projectile.js line 117). -/
noncomputable def dragForceXOf (env : ModelEnv) (s : ProjectileState) : ℝ :=
  0.5 * airDensityOf env.airResistanceOn env.altitude * areaOf s * s.dragCoefficient *
    s.velocity * s.xVelocity

/-- `dragForceY` (Projectile.js line 118). -/
noncomputable def dragForceYOf (env : ModelEnv) (s : ProjectileState) : ℝ :=
  0.5 * airDensityOf env.airResistanceOn env.altitude * areaOf s * s.dragCoefficient *
    s.velocity * s.yVelocity

/-- `this.xAcceleration = -dragForceX / this.mass` (Projectile.js line 121). -/
noncomputable def xAccelerationOf (env : ModelEnv) (s : ProjectileState) : ℝ :=
  -dragForceXOf env s / s.mass

/-- `this.yAcceleration = -ACCELERATION_DUE_TO_GRAVITY - dragForceY / this.mass`
(Projectile.js line 122). -/
noncomputable def yAccelerationOf (env : ModelEnv) (s : ProjectileState) : ℝ :=
  -ACCELERATION_DUE_TO_GRAVITY - dragForceYOf env s / s.mass

/-- `var newX` (Projectile.js line 124). -/
noncomputable def newXOf (env : ModelEnv) (s : ProjectileState) (dt : ℝ) : ℝ :=
  s.x + s.xVelocity * dt + 0.5 * xAccelerationOf env s * dt * dt

/-- `var newY` (Projectile.js line 125). -/
noncomputable def newYOf (env : ModelEnv) (s : ProjectileState) (dt : ℝ) : ℝ :=
  s.y + s.yVelocity * dt + 0.5 * yAccelerationOf env s * dt * dt

/-- `var newXVelocity` (Projectile.js line 127). -/
noncomputable def newXVelocityOf (env : ModelEnv) (s : ProjectileState) (dt : ℝ) : ℝ :=
  s.xVelocity + xAccelerationOf env s * dt

/-- `var newYVelocity` (Projectile.js line 128). -/
noncomputable def newYVelocityOf (env : ModelEnv) (s : ProjectileState) (dt : ℝ) : ℝ :=
  s.yVelocity + yAccelerationOf env s * dt

/-- `var timeToGround` (Projectile.js line 134), computed in the ground branch
from the pre-step position and velocity and the freshly computed
acceleration. -/
noncomputable def timeToGroundOf (env : ModelEnv) (s : ProjectileState) : ℝ :=
  (-Real.sqrt (s.yVelocity * s.yVelocity - 2 * yAccelerationOf env s * s.y) - s.yVelocity) /
    yAccelerationOf env s

/-- The landing abscissa `newX` recomputed in the ground branch (Projectile.js
line 135). -/
noncomputable def groundXOf (env : ModelEnv) (s : ProjectileState) : ℝ :=
  s.x + s.xVelocity * timeToGroundOf env s +
    0.5 * xAccelerationOf env s * timeToGroundOf env s * timeToGroundOf env s

/-- One animation step of a projectile (Projectile.js lines 69–151), with the
JS local variables factored into the definitions above.  The second component
is the ground-impact notification: `checkforScored( newX )` is modelled as
emitting the landing x-coordinate. -/
noncomputable def step (env : ModelEnv) (s : ProjectileState) (dt : ℝ) :
    ProjectileState × Option ℝ :=
  if s.reachedGround then
    ({ s with xVelocity := 0, yVelocity := 0 }, none)
  else if newYOf env s dt ≤ 0 then
    ({ s with
        reachedGround := true
        totalTime := s.totalTime + dt
        x := groundXOf env s
        y := 0
        xVelocity := newXVelocityOf env s dt
        yVelocity := newYVelocityOf env s dt
        xAcceleration := xAccelerationOf env s
        yAcceleration := yAccelerationOf env s
        velocity := Real.sqrt (newXVelocityOf env s dt * newXVelocityOf env s dt +
          newYVelocityOf env s dt * newYVelocityOf env s dt)
        dataPoints := s.dataPoints ++ [⟨s.totalTime + dt, groundXOf env s, 0, false⟩] },
      some (groundXOf env s))
  else
    ({ s with
        totalTime := s.totalTime + dt
        x := newXOf env s dt
        y := newYOf env s dt
        xVelocity := newXVelocityOf env s dt
        yVelocity := newYVelocityOf env s dt
        xAcceleration := xAccelerationOf env s
        yAcceleration := yAccelerationOf env s
        velocity := Real.sqrt (newXVelocityOf env s dt * newXVelocityOf env s dt +
          newYVelocityOf env s dt * newYVelocityOf env s dt)
        dataPoints := s.dataPoints ++ [⟨s.totalTime + dt, newXOf env s dt, newYOf env s dt, false⟩] },
      none)

/-- The scan loop of `getNearestPoint` (Projectile.js lines 169–179): walk the
data points in recording order, replacing the current best whenever the
distance to the query point is less than or equal to the current minimum. -/
noncomputable def nearestLoop (x y : ℝ) : List DataPoint → DataPoint → ℝ → DataPoint
  | [], best, _ => best
  | p :: rest, best, minDistance =>
    if p.distanceXY x y ≤ minDistance then nearestLoop x y rest p (p.distanceXY x y)
    else nearestLoop x y rest best minDistance

/-- `getNearestPoint` (Projectile.js lines 158–181): `none` on an empty log;
otherwise initialise the best to the first data point and scan the whole log
(the source loop starts at index 0, harmlessly revisiting the first point). -/
noncomputable def getNearestPoint (l : List DataPoint) (x y : ℝ) : Option DataPoint :=
  match l with
  | [] => none
  | p0 :: _ => some (nearestLoop x y l p0 (p0.distanceXY x y))

/-- Modelled from the spec: `Trajectory.js` is not in the snapshot.  The slice
of a trajectory that `Tracer.updateData` reads: its `apexPoint` (at most one,
spec §3) and its recorded data points, queried through `getNearestPoint`
exactly as in Projectile.js. -/
structure Trajectory where
  apexPoint : Option DataPoint
  dataPoints : List DataPoint

/-- Readability test of Tracer.js line 78: the point is the apex, or lies on
the ground, or its time in milliseconds (rounded to 0 decimal places by
`Util.toFixedNumber`, modelled from the spec as rounding to the nearest
integer) is an exact multiple of `TIME_PER_MINOR_DOT` (a constant missing
from the snapshot's `ProjectileMotionConstants.js`, kept as the parameter
`timePerMinorDot`). -/
def pointIsReadable (timePerMinorDot : ℤ) (p : DataPoint) : Prop :=
  p.apex = true ∨ p.y = 0 ∨ round (p.time * 1000) % timePerMinorDot = 0

/-- The nearest-point part of the `updateData` loop body (Tracer.js lines
76–82): the trajectory's nearest point, if it exists, is readable and lies
within the sensing radius; `none` otherwise. -/
noncomputable def nearestCheck (timePerMinorDot : ℤ) (pos : ℝ × ℝ) (t : Trajectory) :
    Option DataPoint :=
  match getNearestPoint t.dataPoints pos.1 pos.2 with
  | none => none
  | some p =>
    if pointIsReadable timePerMinorDot p ∧ p.distanceXY pos.1 pos.2 ≤ SENSING_RADIUS then
      some p
    else none

/-- The per-trajectory body of the `updateData` loop (Tracer.js lines 71–82):
an apex within the sensing radius is returned immediately; otherwise the
nearest point is returned when it is readable and within the sensing
radius. -/
noncomputable def trajMatch (timePerMinorDot : ℤ) (pos : ℝ × ℝ) (t : Trajectory) :
    Option DataPoint :=
  match t.apexPoint with
  | some a =>
    if a.distanceXY pos.1 pos.2 ≤ SENSING_RADIUS then some a
    else nearestCheck timePerMinorDot pos t
  | none => nearestCheck timePerMinorDot pos t

/-- The trajectory scan of `updateData`: first match wins, `none` when the
list is exhausted (Tracer.js lines 70–84). -/
noncomputable def scanTrajectories (timePerMinorDot : ℤ) (pos : ℝ × ℝ) :
    List Trajectory → Option DataPoint
  | [] => none
  | t :: rest =>
    match trajMatch timePerMinorDot pos t with
    | some p => some p
    | none => scanTrajectories timePerMinorDot pos rest

/-- `Tracer.updateData` (Tracer.js lines 69–85): iterate the trajectories from
the last-created one backwards and set `dataPointProperty` to the first match,
or to `null` when none matches.  The returned option is the new value of
`dataPointProperty`. -/
noncomputable def updateData (timePerMinorDot : ℤ) (pos : ℝ × ℝ)
    (trajectories : List Trajectory) : Option DataPoint :=
  scanTrajectories timePerMinorDot pos trajectories.reverse

/-- `Tracer.updateDataIfWithinRange` (Tracer.js lines 93–101): set
`dataPointProperty` to the given point only when it exists, is readable and is
within the sensing radius; otherwise keep the old value.  `old` is the
previous value of `dataPointProperty`; the result is its new value. -/
noncomputable def updateDataIfWithinRange (timePerMinorDot : ℤ) (pos : ℝ × ℝ)
    (old : Option DataPoint) (point : Option DataPoint) : Option DataPoint :=
  match point with
  | none => old
  | some p =>
    if pointIsReadable timePerMinorDot p ∧ p.distanceXY pos.1 pos.2 ≤ SENSING_RADIUS then
      some p
    else old

/-! ### Specification-side formulas

The following definitions transcribe the formulas exactly as the claims state
them (drag force, acceleration, candidate position, ground-contact time τ and
landing abscissa); the theorems below compare `step` against them. -/

/-- Spec §4.2 step 3: `Fdx = 0.5·ρ·A·Cd·speed·vx` with `A = π·d²/4`. -/
noncomputable def specDragFx (env : ModelEnv) (s : ProjectileState) : ℝ :=
  0.5 * airDensityOf env.airResistanceOn env.altitude * (Real.pi * s.diameter ^ 2 / 4) *
    s.dragCoefficient * s.velocity * s.xVelocity

/-- Spec §4.2 step 3: `Fdy = 0.5·ρ·A·Cd·speed·vy` with `A = π·d²/4`. -/
noncomputable def specDragFy (env : ModelEnv) (s : ProjectileState) : ℝ :=
  0.5 * airDensityOf env.airResistanceOn env.altitude * (Real.pi * s.diameter ^ 2 / 4) *
    s.dragCoefficient * s.velocity * s.yVelocity

/-- Spec §4.2 step 4: `ax = −Fdx/mass`. -/
noncomputable def specAx (env : ModelEnv) (s : ProjectileState) : ℝ :=
  -specDragFx env s / s.mass

/-- Spec §4.2 step 4: `ay = −g − Fdy/mass`. -/
noncomputable def specAy (env : ModelEnv) (s : ProjectileState) : ℝ :=
  -ACCELERATION_DUE_TO_GRAVITY - specDragFy env s / s.mass

/-- Spec §4.2 step 5: candidate `x' = x + vx·dt + 0.5·ax·dt²`. -/
noncomputable def specCandX (env : ModelEnv) (s : ProjectileState) (dt : ℝ) : ℝ :=
  s.x + s.xVelocity * dt + 0.5 * specAx env s * dt ^ 2

/-- Spec §4.2 step 5: candidate `y' = y + vy·dt + 0.5·ay·dt²`. -/
noncomputable def specCandY (env : ModelEnv) (s : ProjectileState) (dt : ℝ) : ℝ :=
  s.y + s.yVelocity * dt + 0.5 * specAy env s * dt ^ 2

/-- Spec §4.3: `τ = (−sqrt(vy² − 2·ay·y) − vy) / ay`. -/
noncomputable def specTau (env : ModelEnv) (s : ProjectileState) : ℝ :=
  (-Real.sqrt (s.yVelocity ^ 2 - 2 * specAy env s * s.y) - s.yVelocity) / specAy env s

/-- Spec §4.3: `xGround = x + vx·τ + 0.5·ax·τ²`. -/
noncomputable def specXGround (env : ModelEnv) (s : ProjectileState) : ℝ :=
  s.x + s.xVelocity * specTau env s + 0.5 * specAx env s * specTau env s ^ 2

/-! ### Concrete example states used by witnesses and counterexamples -/

/-- Environment with air resistance off at sea level. -/
noncomputable def envOff : ModelEnv := ⟨false, 0⟩

/-- An in-flight state at height 4.905 m with horizontal velocity 1 m/s:
fields are totalTime 0, x 0, y 4.905, mass 1, diameter 1, dragCoefficient 1,
xVelocity 1, yVelocity 0, velocity 1, xAcceleration 0, yAcceleration −9.81,
reachedGround false, no data points. -/
noncomputable def sFalling : ProjectileState :=
  ⟨0, 0, 4.905, 1, 1, 1, 1, 0, 1, 0, -9.81, false, []⟩

/-- An in-flight state at height 19.62 m at rest. -/
noncomputable def sHigh : ProjectileState :=
  ⟨0, 0, 19.62, 1, 1, 1, 0, 0, 0, 0, -9.81, false, []⟩

/-- A state that has already reached the ground. -/
noncomputable def sGrounded : ProjectileState :=
  ⟨1, 2, 0, 1, 1, 1, 3, 4, 5, 0, -9.81, true, [⟨1, 2, 0, false⟩]⟩

/-- An apex sample 0.1 m to the right of the origin. -/
noncomputable def pApex : DataPoint := ⟨1, 0.1, 0, true⟩

/-- A non-apex ground sample at the origin, strictly closer to the origin
than `pApex`. -/
noncomputable def pCloser : DataPoint := ⟨0.5, 0, 0, false⟩

/-- A non-apex ground sample at the origin belonging to the most recently
created trajectory. -/
noncomputable def pGroundNew : DataPoint := ⟨2, 0, 0, false⟩

/-- An apex sample 0.1 m above the origin belonging to an older trajectory. -/
noncomputable def pApexOld : DataPoint := ⟨1, 0, 0.1, true⟩

/-- A trajectory whose apex is within the sensing radius of the origin while
a non-apex sample is strictly closer. -/
noncomputable def trajWitness : Trajectory := ⟨some pApex, [pCloser, pApex]⟩

/-- An older trajectory whose apex is within the sensing radius of the
origin. -/
noncomputable def trajOld : Trajectory := ⟨some pApexOld, [pApexOld]⟩

/-- A more recently created trajectory with no apex and a readable ground
sample at the origin. -/
noncomputable def trajNew : Trajectory := ⟨none, [pGroundNew]⟩

/-! ### Bridge lemmas: the factored source locals equal the spec formulas -/

lemma xAcc_eq_specAx (env : ModelEnv) (s : ProjectileState) :
    xAccelerationOf env s = specAx env s := by
  unfold xAccelerationOf specAx dragForceXOf specDragFx areaOf
  ring

lemma yAcc_eq_specAy (env : ModelEnv) (s : ProjectileState) :
    yAccelerationOf env s = specAy env s := by
  unfold yAccelerationOf specAy dragForceYOf specDragFy areaOf
  ring

lemma newX_eq_specCandX (env : ModelEnv) (s : ProjectileState) (dt : ℝ) :
    newXOf env s dt = specCandX env s dt := by
  unfold newXOf specCandX
  rw [xAcc_eq_specAx]
  ring

lemma newY_eq_specCandY (env : ModelEnv) (s : ProjectileState) (dt : ℝ) :
    newYOf env s dt = specCandY env s dt := by
  unfold newYOf specCandY
  rw [yAcc_eq_specAy]
  ring

lemma timeToGround_eq_specTau (env : ModelEnv) (s : ProjectileState) :
    timeToGroundOf env s = specTau env s := by
  unfold timeToGroundOf specTau
  rw [yAcc_eq_specAy,
    show s.yVelocity * s.yVelocity - 2 * specAy env s * s.y
        = s.yVelocity ^ 2 - 2 * specAy env s * s.y by ring]

lemma groundX_eq_specXGround (env : ModelEnv) (s : ProjectileState) :
    groundXOf env s = specXGround env s := by
  unfold groundXOf specXGround
  rw [timeToGround_eq_specTau, xAcc_eq_specAx]
  ring

/-! ### Claim theorems -/

/-- C9: for every altitude, when air resistance is enabled the air density
used by `step` equals `P / (0.2869·(T+273.1))` with `(T, P)` given by the
piecewise NASA atmosphere model (troposphere below 11000 m, lower
stratosphere below 25000 m, upper stratosphere at and above 25000 m); when
air resistance is disabled the density is exactly 0 regardless of
altitude. -/
theorem airDensity_piecewise_atmosphere (a : ℝ) :
    (a < 11000 →
      airDensityOf true a =
        101.29 * (((15.04 - 0.00649 * a + 273.1) / 288.08) ^ (5.256 : ℝ)) /
          (0.2869 * (15.04 - 0.00649 * a + 273.1))) ∧
    (11000 ≤ a → a < 25000 →
      airDensityOf true a =
        22.65 * Real.exp (1.73 - 0.000157 * a) / (0.2869 * (-56.46 + 273.1))) ∧
    (25000 ≤ a →
      airDensityOf true a =
        2.488 * (((-131.21 + 0.00299 * a + 273.1) / 216.6) ^ ((-11.388 : ℝ))) /
          (0.2869 * (-131.21 + 0.00299 * a + 273.1))) ∧
    airDensityOf false a = 0 := by
  refine ⟨fun h => ?_, fun h1 h2 => ?_, fun h => ?_, ?_⟩
  · simp [airDensityOf, h]
  · simp [airDensityOf, not_lt.2 h1, h2]
  · simp [airDensityOf, not_lt.2 (by linarith : (11000:ℝ) ≤ a), not_lt.2 h]
  · simp [airDensityOf]

/-- Witness for C9: the three branches evaluated at altitudes 0, 20000 and
30000, and the air-resistance-off case at altitude 30000. -/
theorem airDensity_piecewise_atmosphere_witness :
    airDensityOf true 0 =
      101.29 * (((15.04 - 0.00649 * 0 + 273.1) / 288.08) ^ (5.256 : ℝ)) /
        (0.2869 * (15.04 - 0.00649 * 0 + 273.1)) ∧
    airDensityOf true 20000 =
      22.65 * Real.exp (1.73 - 0.000157 * 20000) / (0.2869 * (-56.46 + 273.1)) ∧
    airDensityOf true 30000 =
      2.488 * (((-131.21 + 0.00299 * 30000 + 273.1) / 216.6) ^ ((-11.388 : ℝ))) /
        (0.2869 * (-131.21 + 0.00299 * 30000 + 273.1)) ∧
    airDensityOf false 30000 = 0 :=
  ⟨(airDensity_piecewise_atmosphere 0).1 (by norm_num),
   (airDensity_piecewise_atmosphere 20000).2.1 (by norm_num) (by norm_num),
   (airDensity_piecewise_atmosphere 30000).2.2.1 (by norm_num),
   (airDensity_piecewise_atmosphere 30000).2.2.2⟩

/-- C3: once `reachedGround` is true, `step` performs no integration: it
zeroes both velocity components and leaves position, elapsed time,
acceleration and the sample log unchanged (the full result state equals the
input with only the two velocity fields replaced by 0), and no scoring
notification is emitted. -/
theorem step_after_ground_freezes (env : ModelEnv) (s : ProjectileState) (dt : ℝ)
    (h : s.reachedGround = true) :
    step env s dt = ({ s with xVelocity := 0, yVelocity := 0 }, none) := by
  simp [step, h]

/-- Witness for C3 at a concrete grounded state. -/
theorem step_after_ground_freezes_witness :
    step envOff sGrounded 0.016 = ({ sGrounded with xVelocity := 0, yVelocity := 0 }, none) :=
  step_after_ground_freezes envOff sGrounded 0.016 rfl

/-- C2: a step with `dt > 0` that does not cross the ground (candidate
`y' > 0`) commits exactly the semi-implicit update computed from the previous
velocity: drag from the previous scalar speed, `ax = −Fdx/mass`,
`ay = −g − Fdy/mass`, position and velocity from the candidate formulas,
elapsed time advanced by exactly `dt`, scalar speed recomputed as the
magnitude of the new velocity, and exactly one sample `(time, x', y')`
appended to the log. -/
theorem step_commits_semi_implicit_update (env : ModelEnv) (s : ProjectileState) (dt : ℝ)
    (hg : s.reachedGround = false) (hdt : 0 < dt) (hy : 0 < specCandY env s dt) :
    step env s dt =
      ({ s with
          totalTime := s.totalTime + dt
          x := specCandX env s dt
          y := specCandY env s dt
          xVelocity := s.xVelocity + specAx env s * dt
          yVelocity := s.yVelocity + specAy env s * dt
          xAcceleration := specAx env s
          yAcceleration := specAy env s
          velocity := Real.sqrt ((s.xVelocity + specAx env s * dt) ^ 2 +
            (s.yVelocity + specAy env s * dt) ^ 2)
          dataPoints := s.dataPoints ++
            [⟨s.totalTime + dt, specCandX env s dt, specCandY env s dt, false⟩] },
        none) := by
  have hvx : newXVelocityOf env s dt = s.xVelocity + specAx env s * dt := by
    unfold newXVelocityOf
    rw [xAcc_eq_specAx]
  have hvy : newYVelocityOf env s dt = s.yVelocity + specAy env s * dt := by
    unfold newYVelocityOf
    rw [yAcc_eq_specAy]
  unfold step
  rw [if_neg (by simp [hg]), if_neg (by rw [newY_eq_specCandY]; exact not_le.2 hy)]
  rw [newX_eq_specCandX, newY_eq_specCandY, hvx, hvy, xAcc_eq_specAx, yAcc_eq_specAy,
    show (s.xVelocity + specAx env s * dt) * (s.xVelocity + specAx env s * dt)
        = (s.xVelocity + specAx env s * dt) ^ 2 by ring,
    show (s.yVelocity + specAy env s * dt) * (s.yVelocity + specAy env s * dt)
        = (s.yVelocity + specAy env s * dt) ^ 2 by ring]

/-- Witness for C2 at the concrete state `sHigh` with `dt = 1` (candidate
`y' = 14.715 > 0`). -/
theorem step_commits_semi_implicit_update_witness :
    step envOff sHigh 1 =
      ({ sHigh with
          totalTime := sHigh.totalTime + 1
          x := specCandX envOff sHigh 1
          y := specCandY envOff sHigh 1
          xVelocity := sHigh.xVelocity + specAx envOff sHigh * 1
          yVelocity := sHigh.yVelocity + specAy envOff sHigh * 1
          xAcceleration := specAx envOff sHigh
          yAcceleration := specAy envOff sHigh
          velocity := Real.sqrt ((sHigh.xVelocity + specAx envOff sHigh * 1) ^ 2 +
            (sHigh.yVelocity + specAy envOff sHigh * 1) ^ 2)
          dataPoints := sHigh.dataPoints ++
            [⟨sHigh.totalTime + 1, specCandX envOff sHigh 1, specCandY envOff sHigh 1, false⟩] },
        none) :=
  step_commits_semi_implicit_update envOff sHigh 1 rfl (by norm_num)
    (by
      unfold specCandY specAy specDragFy
      simp [airDensityOf, envOff, sHigh]
      norm_num [ACCELERATION_DUE_TO_GRAVITY])

/-- C1 (amended): a step from an in-flight state with `y > 0` whose candidate
position has `y' ≤ 0` resolves ground contact analytically: with
`τ = (−sqrt(vy² − 2·ay·y) − vy)/ay` and `xGround = x + vx·τ + 0.5·ax·τ²`
computed from the pre-step state, the committed state has `y = 0`,
`reachedGround = true`, `x = xGround`, elapsed time advanced by the full `dt`
(not by `τ`), exactly one final sample `(t + dt, xGround, 0)` appended, and
the scoring collaborator notified with `xGround`. -/
theorem step_resolves_ground_contact (env : ModelEnv) (s : ProjectileState) (dt : ℝ)
    (hg : s.reachedGround = false) (hy0 : 0 < s.y) (hy : specCandY env s dt ≤ 0) :
    (step env s dt).1.y = 0 ∧
    (step env s dt).1.reachedGround = true ∧
    (step env s dt).1.x = specXGround env s ∧
    (step env s dt).1.totalTime = s.totalTime + dt ∧
    (step env s dt).1.dataPoints =
      s.dataPoints ++ [⟨s.totalTime + dt, specXGround env s, 0, false⟩] ∧
    (step env s dt).2 = some (specXGround env s) := by
  have hcond : newYOf env s dt ≤ 0 := by rw [newY_eq_specCandY]; exact hy
  unfold step
  rw [if_neg (by simp [hg]), if_pos hcond]
  exact ⟨rfl, rfl, groundX_eq_specXGround env s, rfl,
    by rw [groundX_eq_specXGround], by rw [groundX_eq_specXGround]⟩

/-- Witness for the amended C1 at the concrete state `sFalling` with
`dt = 2` (candidate `y' = −14.715 ≤ 0`). -/
theorem step_resolves_ground_contact_witness :
    (step envOff sFalling 2).1.y = 0 ∧
    (step envOff sFalling 2).1.reachedGround = true ∧
    (step envOff sFalling 2).1.x = specXGround envOff sFalling ∧
    (step envOff sFalling 2).1.totalTime = sFalling.totalTime + 2 ∧
    (step envOff sFalling 2).1.dataPoints =
      sFalling.dataPoints ++ [⟨sFalling.totalTime + 2, specXGround envOff sFalling, 0, false⟩] ∧
    (step envOff sFalling 2).2 = some (specXGround envOff sFalling) :=
  step_resolves_ground_contact envOff sFalling 2 rfl (by norm_num [sFalling])
    (by
      unfold specCandY specAy specDragFy
      simp [airDensityOf, envOff, sFalling]
      norm_num [ACCELERATION_DUE_TO_GRAVITY])

/-- Counterexample to C1 as stated: at the state `sFalling` (height 4.905 m,
vertical velocity 0, drag off) with `dt = 2`, the analytic time-to-ground is
`τ = 1`, so the claimed final-sample time `t + τ` is `1`; but the sample the
code appends carries time `t + dt = 2`. -/
theorem step_ground_sample_time_counterexample :
    (step envOff sFalling 2).1.dataPoints = [⟨2, 1, 0, false⟩] ∧
    sFalling.totalTime + specTau envOff sFalling = 1 ∧
    (2 : ℝ) ≠ 1 := by
  have hρ : airDensityOf envOff.airResistanceOn envOff.altitude = 0 := by
    simp [envOff, airDensityOf]
  have hay : yAccelerationOf envOff sFalling = -9.81 := by
    unfold yAccelerationOf dragForceYOf areaOf
    rw [hρ]
    norm_num [ACCELERATION_DUE_TO_GRAVITY]
  have hax : xAccelerationOf envOff sFalling = 0 := by
    unfold xAccelerationOf dragForceXOf areaOf
    rw [hρ]
    norm_num
  have hsq : Real.sqrt (sFalling.yVelocity * sFalling.yVelocity -
      2 * yAccelerationOf envOff sFalling * sFalling.y) = 9.81 := by
    rw [hay, show sFalling.yVelocity * sFalling.yVelocity - 2 * (-9.81 : ℝ) * sFalling.y
        = (9.81 : ℝ) ^ 2 by norm_num [sFalling],
      Real.sqrt_sq (by norm_num : (0:ℝ) ≤ 9.81)]
  have htau : timeToGroundOf envOff sFalling = 1 := by
    unfold timeToGroundOf
    rw [hsq, hay]
    norm_num [sFalling]
  have hgx : groundXOf envOff sFalling = 1 := by
    unfold groundXOf
    rw [htau, hax]
    norm_num [sFalling]
  have hcond : newYOf envOff sFalling 2 ≤ 0 := by
    unfold newYOf
    rw [hay]
    norm_num [sFalling]
  refine ⟨?_, ?_, by norm_num⟩
  · unfold step
    rw [if_neg (by simp [sFalling]), if_pos hcond]
    simp only [hgx]
    simp [sFalling]
  · rw [← timeToGround_eq_specTau, htau]
    norm_num [sFalling]

/-- C6 (amended): `step` performs no input validation and never fails: for
every `dt` — positive or not — and arbitrary mass and diameter, a
non-grounded projectile is integrated as usual: elapsed time advances by
exactly `dt` and exactly one sample is appended. -/
theorem step_never_fails (env : ModelEnv) (s : ProjectileState) (dt : ℝ)
    (hg : s.reachedGround = false) :
    (step env s dt).1.totalTime = s.totalTime + dt ∧
    (step env s dt).1.dataPoints.length = s.dataPoints.length + 1 := by
  unfold step
  rw [if_neg (by simp [hg])]
  by_cases h : newYOf env s dt ≤ 0
  · rw [if_pos h]
    exact ⟨rfl, by simp⟩
  · rw [if_neg h]
    exact ⟨rfl, by simp⟩

/-- Witness for the amended C6: the invalid time step `dt = −1` is integrated
like any other. -/
theorem step_never_fails_witness :
    (step envOff sHigh (-1)).1.totalTime = sHigh.totalTime + (-1) ∧
    (step envOff sHigh (-1)).1.dataPoints.length = sHigh.dataPoints.length + 1 :=
  step_never_fails envOff sHigh (-1) rfl

/-- Counterexample to C6 as stated: `dt = −1 ≤ 0` is invalid input, yet
`step` does not fail and does not stop before integrating — it advances the
elapsed time to −1 and appends a sample. -/
theorem step_invalid_dt_counterexample :
    ((-1 : ℝ) ≤ 0) ∧
    (step envOff sHigh (-1)).1.totalTime = -1 ∧
    (step envOff sHigh (-1)).1.dataPoints.length = 1 := by
  have hρ : airDensityOf envOff.airResistanceOn envOff.altitude = 0 := by
    simp [envOff, airDensityOf]
  have hay : yAccelerationOf envOff sHigh = -9.81 := by
    unfold yAccelerationOf dragForceYOf areaOf
    rw [hρ]
    norm_num [ACCELERATION_DUE_TO_GRAVITY]
  have hcond : ¬ newYOf envOff sHigh (-1) ≤ 0 := by
    unfold newYOf
    rw [hay]
    norm_num [sHigh]
  refine ⟨by norm_num, ?_, ?_⟩
  · unfold step
    rw [if_neg (by simp [sHigh]), if_neg hcond]
    norm_num [sHigh]
  · unfold step
    rw [if_neg (by simp [sHigh]), if_neg hcond]
    simp [sHigh]

/-- Development lemma supporting the analysis of C5: in exact real arithmetic
the ground-resolution discriminant `vy² − 2·ay·y` is nonnegative whenever the
pre-step height is positive and the candidate position has crossed the
ground, so the negative-discriminant case guarded in spec §7 is unreachable
except through floating-point rounding. -/
theorem discrim_nonneg_of_ground_crossing (env : ModelEnv) (s : ProjectileState) (dt : ℝ)
    (hy : 0 < s.y) (hcross : specCandY env s dt ≤ 0) :
    0 ≤ s.yVelocity ^ 2 - 2 * specAy env s * s.y := by
  unfold specCandY at hcross
  rcases le_or_lt (specAy env s) 0 with h | h
  · nlinarith [sq_nonneg s.yVelocity, mul_nonneg (neg_nonneg.2 h) hy.le]
  · nlinarith [sq_nonneg (s.yVelocity + specAy env s * dt),
      mul_nonneg h.le (neg_nonneg.2 hcross)]

/-- Invariant of the `getNearestPoint` scan loop: starting from a current
best `acc` at its own distance, the loop either keeps `acc` (when every
remaining point is strictly farther) or returns a point of the list whose
distance is a minimum over the list, is no worse than `acc`, and which beats
every later-scanned point strictly (the `≤` comparison lets later points
displace equal-distance earlier ones). -/
lemma nearestLoop_spec (x y : ℝ) (l : List DataPoint) (acc : DataPoint) :
    (nearestLoop x y l acc (acc.distanceXY x y) = acc ∧
      ∀ p ∈ l, acc.distanceXY x y < p.distanceXY x y) ∨
    (∃ k, ∃ hk : k < l.length,
      nearestLoop x y l acc (acc.distanceXY x y) = l.get ⟨k, hk⟩ ∧
      (l.get ⟨k, hk⟩).distanceXY x y ≤ acc.distanceXY x y ∧
      (∀ j, ∀ hj : j < l.length,
        (l.get ⟨k, hk⟩).distanceXY x y ≤ (l.get ⟨j, hj⟩).distanceXY x y) ∧
      (∀ j, ∀ hj : j < l.length, k < j →
        (l.get ⟨k, hk⟩).distanceXY x y < (l.get ⟨j, hj⟩).distanceXY x y)) := by
  induction l generalizing acc with
  | nil => exact Or.inl ⟨rfl, by simp⟩
  | cons p rest ih =>
    by_cases hle : p.distanceXY x y ≤ acc.distanceXY x y
    · have hstep : nearestLoop x y (p :: rest) acc (acc.distanceXY x y)
          = nearestLoop x y rest p (p.distanceXY x y) := by
        simp only [nearestLoop]
        rw [if_pos hle]
      rcases ih p with ⟨heq, hlt⟩ | ⟨k, hk, heq, hle2, hmin, hstrict⟩
      · refine Or.inr ⟨0, by simp, by rw [hstep, heq]; rfl, hle, ?_, ?_⟩
        · intro j hj
          cases j with
          | zero => exact le_refl _
          | succ j' =>
            exact le_of_lt (hlt _ (rest.get_mem _ _))
        · intro j hj hpos
          cases j with
          | zero => exact absurd hpos (lt_irrefl 0)
          | succ j' =>
            exact hlt _ (rest.get_mem _ _)
      · refine Or.inr ⟨k + 1, Nat.succ_lt_succ hk, by rw [hstep, heq]; rfl,
          le_trans hle2 hle, ?_, ?_⟩
        · intro j hj
          cases j with
          | zero => exact hle2
          | succ j' => exact hmin j' (Nat.lt_of_succ_lt_succ hj)
        · intro j hj hlt0
          cases j with
          | zero => exact absurd hlt0 (Nat.not_lt_zero _)
          | succ j' =>
            exact hstrict j' (Nat.lt_of_succ_lt_succ hj) (Nat.lt_of_succ_lt_succ hlt0)
    · push_neg at hle
      have hstep : nearestLoop x y (p :: rest) acc (acc.distanceXY x y)
          = nearestLoop x y rest acc (acc.distanceXY x y) := by
        simp only [nearestLoop]
        rw [if_neg (not_le.2 hle)]
      rcases ih acc with ⟨heq, hlt⟩ | ⟨k, hk, heq, hle2, hmin, hstrict⟩
      · refine Or.inl ⟨by rw [hstep, heq], ?_⟩
        intro q hq
        rcases List.mem_cons.1 hq with rfl | hq'
        · exact hle
        · exact hlt q hq'
      · refine Or.inr ⟨k + 1, Nat.succ_lt_succ hk, by rw [hstep, heq]; rfl, hle2, ?_, ?_⟩
        · intro j hj
          cases j with
          | zero => exact le_trans hle2 (le_of_lt hle)
          | succ j' => exact hmin j' (Nat.lt_of_succ_lt_succ hj)
        · intro j hj hlt0
          cases j with
          | zero => exact absurd hlt0 (Nat.not_lt_zero _)
          | succ j' =>
            exact hstrict j' (Nat.lt_of_succ_lt_succ hj) (Nat.lt_of_succ_lt_succ hlt0)

/-- C4: `getNearestPoint` returns `none` exactly on an empty log; on a
non-empty log it returns a recorded sample whose Euclidean distance to the
query point is a minimum over the whole log, and among samples at exactly the
minimal distance it returns the latest-scanned one (the scan proceeds in
recording order, so any sample at the minimal distance has an index no later
than the returned one). -/
theorem getNearestPoint_nearest_latest (l : List DataPoint) (x y : ℝ) :
    (getNearestPoint l x y = none ↔ l = []) ∧
    (l ≠ [] → ∃ k, ∃ hk : k < l.length,
      getNearestPoint l x y = some (l.get ⟨k, hk⟩) ∧
      (∀ j, ∀ hj : j < l.length,
        (l.get ⟨k, hk⟩).distanceXY x y ≤ (l.get ⟨j, hj⟩).distanceXY x y) ∧
      (∀ j, ∀ hj : j < l.length,
        (l.get ⟨j, hj⟩).distanceXY x y = (l.get ⟨k, hk⟩).distanceXY x y → j ≤ k)) := by
  cases l with
  | nil => exact ⟨by simp [getNearestPoint], fun h => absurd rfl h⟩
  | cons p0 rest =>
    constructor
    · simp [getNearestPoint]
    · intro _
      rcases nearestLoop_spec x y (p0 :: rest) p0 with ⟨heq, hlt⟩ | ⟨k, hk, heq, _, hmin, hstrict⟩
      · exact absurd (hlt p0 (List.mem_cons_self p0 rest)) (lt_irrefl _)
      · refine ⟨k, hk, ?_, hmin, ?_⟩
        · show some (nearestLoop x y (p0 :: rest) p0 (p0.distanceXY x y)) = _
          rw [heq]
        · intro j hj hdist
          by_contra hgt
          push_neg at hgt
          exact (ne_of_gt (hstrict j hj hgt)) hdist

/-- Witness for C4 on the one-point log `[pGroundNew]` queried from the
origin. -/
theorem getNearestPoint_nearest_latest_witness :
    ∃ k, ∃ hk : k < [pGroundNew].length,
      getNearestPoint [pGroundNew] 0 0 = some ([pGroundNew].get ⟨k, hk⟩) ∧
      (∀ j, ∀ hj : j < [pGroundNew].length,
        ([pGroundNew].get ⟨k, hk⟩).distanceXY 0 0 ≤ ([pGroundNew].get ⟨j, hj⟩).distanceXY 0 0) ∧
      (∀ j, ∀ hj : j < [pGroundNew].length,
        ([pGroundNew].get ⟨j, hj⟩).distanceXY 0 0 = ([pGroundNew].get ⟨k, hk⟩).distanceXY 0 0 →
          j ≤ k) :=
  (getNearestPoint_nearest_latest [pGroundNew] 0 0).2 (by simp)

/-! ### Tracer helper lemmas -/

lemma nearestCheck_some (tpmd : ℤ) (pos : ℝ × ℝ) (t : Trajectory) (p : DataPoint)
    (h : nearestCheck tpmd pos t = some p) :
    getNearestPoint t.dataPoints pos.1 pos.2 = some p ∧ pointIsReadable tpmd p ∧
      p.distanceXY pos.1 pos.2 ≤ SENSING_RADIUS := by
  unfold nearestCheck at h
  cases hN : getNearestPoint t.dataPoints pos.1 pos.2 with
  | none => rw [hN] at h; exact Option.noConfusion h
  | some q =>
    rw [hN] at h
    replace h : (if pointIsReadable tpmd q ∧ q.distanceXY pos.1 pos.2 ≤ SENSING_RADIUS then
        some q else none) = some p := h
    by_cases hc : pointIsReadable tpmd q ∧ q.distanceXY pos.1 pos.2 ≤ SENSING_RADIUS
    · rw [if_pos hc] at h
      obtain rfl : q = p := Option.some.inj h
      exact ⟨rfl, hc.1, hc.2⟩
    · rw [if_neg hc] at h
      exact Option.noConfusion h

lemma nearestCheck_none_of (tpmd : ℤ) (pos : ℝ × ℝ) (t : Trajectory)
    (h : ∀ q, getNearestPoint t.dataPoints pos.1 pos.2 = some q →
      ¬ (pointIsReadable tpmd q ∧ q.distanceXY pos.1 pos.2 ≤ SENSING_RADIUS)) :
    nearestCheck tpmd pos t = none := by
  unfold nearestCheck
  cases hN : getNearestPoint t.dataPoints pos.1 pos.2 with
  | none => rfl
  | some q => exact if_neg (h q hN)

lemma trajMatch_some (tpmd : ℤ) (pos : ℝ × ℝ) (t : Trajectory) (p : DataPoint)
    (h : trajMatch tpmd pos t = some p) :
    (t.apexPoint = some p ∧ p.distanceXY pos.1 pos.2 ≤ SENSING_RADIUS) ∨
    (getNearestPoint t.dataPoints pos.1 pos.2 = some p ∧ pointIsReadable tpmd p ∧
      p.distanceXY pos.1 pos.2 ≤ SENSING_RADIUS) := by
  unfold trajMatch at h
  cases hA : t.apexPoint with
  | none =>
    rw [hA] at h
    exact Or.inr (nearestCheck_some tpmd pos t p h)
  | some a =>
    rw [hA] at h
    replace h : (if a.distanceXY pos.1 pos.2 ≤ SENSING_RADIUS then some a
        else nearestCheck tpmd pos t) = some p := h
    by_cases hd : a.distanceXY pos.1 pos.2 ≤ SENSING_RADIUS
    · rw [if_pos hd] at h
      obtain rfl : a = p := Option.some.inj h
      exact Or.inl ⟨rfl, hd⟩
    · rw [if_neg hd] at h
      exact Or.inr (nearestCheck_some tpmd pos t p h)

lemma trajMatch_none_of (tpmd : ℤ) (pos : ℝ × ℝ) (t : Trajectory)
    (hA : ∀ a, t.apexPoint = some a → ¬ a.distanceXY pos.1 pos.2 ≤ SENSING_RADIUS)
    (hN : ∀ q, getNearestPoint t.dataPoints pos.1 pos.2 = some q →
      ¬ (pointIsReadable tpmd q ∧ q.distanceXY pos.1 pos.2 ≤ SENSING_RADIUS)) :
    trajMatch tpmd pos t = none := by
  unfold trajMatch
  cases hAp : t.apexPoint with
  | none => exact nearestCheck_none_of tpmd pos t hN
  | some a =>
    show (if a.distanceXY pos.1 pos.2 ≤ SENSING_RADIUS then some a
      else nearestCheck tpmd pos t) = none
    rw [if_neg (hA a hAp)]
    exact nearestCheck_none_of tpmd pos t hN

lemma scanTrajectories_some (tpmd : ℤ) (pos : ℝ × ℝ) (l : List Trajectory) (p : DataPoint)
    (h : scanTrajectories tpmd pos l = some p) :
    ∃ t ∈ l, trajMatch tpmd pos t = some p := by
  induction l with
  | nil => exact Option.noConfusion h
  | cons t rest ih =>
    cases hm : trajMatch tpmd pos t with
    | some q =>
      simp only [scanTrajectories, hm, Option.some.injEq] at h
      subst h
      exact ⟨t, List.mem_cons_self t rest, hm⟩
    | none =>
      simp only [scanTrajectories, hm] at h
      obtain ⟨t', ht', h'⟩ := ih h
      exact ⟨t', List.mem_cons_of_mem t ht', h'⟩

lemma scanTrajectories_none_of (tpmd : ℤ) (pos : ℝ × ℝ) (l : List Trajectory)
    (h : ∀ t ∈ l, trajMatch tpmd pos t = none) :
    scanTrajectories tpmd pos l = none := by
  induction l with
  | nil => rfl
  | cons t rest ih =>
    simp only [scanTrajectories, h t (List.mem_cons_self t rest)]
    exact ih fun t' ht' => h t' (List.mem_cons_of_mem t ht')

lemma scanTrajectories_append_none (tpmd : ℤ) (pos : ℝ × ℝ) (l1 l2 : List Trajectory)
    (h : ∀ t ∈ l1, trajMatch tpmd pos t = none) :
    scanTrajectories tpmd pos (l1 ++ l2) = scanTrajectories tpmd pos l2 := by
  induction l1 with
  | nil => rfl
  | cons t rest ih =>
    simp only [List.cons_append, scanTrajectories, h t (List.mem_cons_self t rest)]
    exact ih fun t' ht' => h t' (List.mem_cons_of_mem t ht')

lemma dist_pGroundNew_origin : pGroundNew.distanceXY 0 0 = 0 := by
  unfold DataPoint.distanceXY pGroundNew
  norm_num

lemma dist_pApexOld_origin : pApexOld.distanceXY 0 0 = 0.1 := by
  unfold DataPoint.distanceXY pApexOld
  rw [show ((0 : ℝ) - 0) ^ 2 + ((0.1 : ℝ) - 0) ^ 2 = (0.1 : ℝ) ^ 2 by norm_num,
    Real.sqrt_sq (by norm_num : (0 : ℝ) ≤ 0.1)]

lemma dist_pApex_origin : pApex.distanceXY 0 0 = 0.1 := by
  unfold DataPoint.distanceXY pApex
  rw [show ((0.1 : ℝ) - 0) ^ 2 + ((0 : ℝ) - 0) ^ 2 = (0.1 : ℝ) ^ 2 by norm_num,
    Real.sqrt_sq (by norm_num : (0 : ℝ) ≤ 0.1)]

lemma dist_pCloser_origin : pCloser.distanceXY 0 0 = 0 := by
  unfold DataPoint.distanceXY pCloser
  norm_num

/-- C7 (amended): within a single trajectory the apex has absolute priority —
if a trajectory's apex lies within the sensing radius and every more recently
created trajectory (those scanned before it) yields no match, `updateData`
returns that apex, regardless of how close any non-apex sample of the same
trajectory is. -/
theorem updateData_apex_priority (tpmd : ℤ) (pos : ℝ × ℝ) (pre post : List Trajectory)
    (traj : Trajectory) (a : DataPoint)
    (hap : traj.apexPoint = some a)
    (hdist : a.distanceXY pos.1 pos.2 ≤ SENSING_RADIUS)
    (hpost : ∀ t ∈ post, trajMatch tpmd pos t = none) :
    updateData tpmd pos (pre ++ traj :: post) = some a := by
  have hm : trajMatch tpmd pos traj = some a := by
    unfold trajMatch
    rw [hap]
    show (if a.distanceXY pos.1 pos.2 ≤ SENSING_RADIUS then some a
      else nearestCheck tpmd pos traj) = some a
    rw [if_pos hdist]
  unfold updateData
  rw [show (pre ++ traj :: post).reverse = post.reverse ++ traj :: pre.reverse by simp,
    scanTrajectories_append_none tpmd pos post.reverse (traj :: pre.reverse)
      (fun t ht => hpost t (List.mem_reverse.1 ht))]
  simp only [scanTrajectories, hm]

/-- Witness for the amended C7: a single trajectory whose apex `pApex` (at
distance 0.1 from the probe) is returned even though the non-apex sample
`pCloser` of the same trajectory is strictly closer (distance 0). -/
theorem updateData_apex_priority_witness :
    updateData 100 (0, 0) [trajWitness] = some pApex ∧
    pCloser.distanceXY 0 0 < pApex.distanceXY 0 0 := by
  constructor
  · have h := updateData_apex_priority 100 (0, 0) [] [] trajWitness pApex rfl
      (by norm_num [dist_pApex_origin, SENSING_RADIUS]) (by simp)
    simpa using h
  · rw [dist_pCloser_origin, dist_pApex_origin]
    norm_num

/-- Counterexample to C7 as stated: the probe (at the origin) lies within the
sensing radius of `trajOld`'s apex `pApexOld`, yet `updateData` returns the
readable non-apex sample `pGroundNew` of the more recently created
`trajNew` — a later-created trajectory's readable nearest sample preempts an
older trajectory's qualifying apex. -/
theorem updateData_recent_overrides_apex_counterexample :
    trajOld.apexPoint = some pApexOld ∧
    pApexOld.distanceXY 0 0 ≤ SENSING_RADIUS ∧
    updateData 100 (0, 0) [trajOld, trajNew] = some pGroundNew ∧
    pGroundNew ≠ pApexOld := by
  have hmNew : trajMatch 100 (0, 0) trajNew = some pGroundNew := by
    unfold trajMatch
    rw [show trajNew.apexPoint = none from rfl]
    show nearestCheck 100 (0, 0) trajNew = some pGroundNew
    unfold nearestCheck
    rw [show getNearestPoint trajNew.dataPoints ((0 : ℝ), (0 : ℝ)).1 ((0 : ℝ), (0 : ℝ)).2
        = some pGroundNew from by simp [trajNew, getNearestPoint, nearestLoop]]
    exact if_pos ⟨Or.inr (Or.inl rfl), by norm_num [dist_pGroundNew_origin, SENSING_RADIUS]⟩
  refine ⟨rfl, by norm_num [dist_pApexOld_origin, SENSING_RADIUS], ?_, ?_⟩
  · unfold updateData
    rw [show ([trajOld, trajNew] : List Trajectory).reverse = [trajNew, trajOld] from by simp]
    simp only [scanTrajectories, hmNew]
  · simp only [pGroundNew, pApexOld, ne_eq, DataPoint.mk.injEq]
    norm_num

/-- C8: a match produced by `updateData` is either a trajectory's apex within
the sensing radius, or a trajectory's nearest sample that is readable (apex
flag, y exactly 0, or rounded milliseconds a multiple of the minor-dot
interval) and within the sensing radius; and when no trajectory offers
either kind of match, the result is `none`. -/
theorem updateData_match_requires_readable (tpmd : ℤ) (pos : ℝ × ℝ)
    (trajs : List Trajectory) :
    (∀ p, updateData tpmd pos trajs = some p →
      ∃ t ∈ trajs,
        (t.apexPoint = some p ∧ p.distanceXY pos.1 pos.2 ≤ SENSING_RADIUS) ∨
        (getNearestPoint t.dataPoints pos.1 pos.2 = some p ∧ pointIsReadable tpmd p ∧
          p.distanceXY pos.1 pos.2 ≤ SENSING_RADIUS)) ∧
    ((∀ t ∈ trajs,
        (∀ a, t.apexPoint = some a → ¬ a.distanceXY pos.1 pos.2 ≤ SENSING_RADIUS) ∧
        (∀ q, getNearestPoint t.dataPoints pos.1 pos.2 = some q →
          ¬ (pointIsReadable tpmd q ∧ q.distanceXY pos.1 pos.2 ≤ SENSING_RADIUS))) →
      updateData tpmd pos trajs = none) := by
  constructor
  · intro p h
    unfold updateData at h
    obtain ⟨t, ht, hm⟩ := scanTrajectories_some tpmd pos trajs.reverse p h
    exact ⟨t, List.mem_reverse.1 ht, trajMatch_some tpmd pos t p hm⟩
  · intro h
    unfold updateData
    exact scanTrajectories_none_of tpmd pos trajs.reverse fun t ht =>
      trajMatch_none_of tpmd pos t (h t (List.mem_reverse.1 ht)).1
        (h t (List.mem_reverse.1 ht)).2

/-- Witness for C8: a single trajectory with no apex and no samples yields no
match. -/
theorem updateData_match_requires_readable_witness :
    updateData 100 (0, 0) [⟨none, []⟩] = none :=
  (updateData_match_requires_readable 100 (0, 0) [⟨none, []⟩]).2
    (by
      intro t ht
      rw [List.mem_singleton] at ht
      subst ht
      exact ⟨fun a ha => Option.noConfusion ha, fun q hq => Option.noConfusion hq⟩)

/-- C10: `updateDataIfWithinRange` sets the matched sample to the given point
exactly when the point exists, is readable and lies within the sensing
radius; in every other case it leaves the previously matched sample
unchanged, and in particular it never resets an existing match to `none`. -/
theorem updateDataIfWithinRange_only_sets_readable (tpmd : ℤ) (pos : ℝ × ℝ)
    (old point : Option DataPoint) :
    (∀ p, point = some p → pointIsReadable tpmd p →
      p.distanceXY pos.1 pos.2 ≤ SENSING_RADIUS →
      updateDataIfWithinRange tpmd pos old point = some p) ∧
    ((∀ p, point = some p →
        ¬ (pointIsReadable tpmd p ∧ p.distanceXY pos.1 pos.2 ≤ SENSING_RADIUS)) →
      updateDataIfWithinRange tpmd pos old point = old) ∧
    (updateDataIfWithinRange tpmd pos old point = none → old = none) := by
  refine ⟨?_, ?_, ?_⟩
  · intro p hp hr hd
    subst hp
    show (if pointIsReadable tpmd p ∧ p.distanceXY pos.1 pos.2 ≤ SENSING_RADIUS then some p
      else old) = some p
    rw [if_pos ⟨hr, hd⟩]
  · intro h
    cases point with
    | none => rfl
    | some p =>
      show (if pointIsReadable tpmd p ∧ p.distanceXY pos.1 pos.2 ≤ SENSING_RADIUS then some p
        else old) = old
      rw [if_neg (h p rfl)]
  · intro h
    cases point with
    | none => exact h
    | some p =>
      replace h : (if pointIsReadable tpmd p ∧ p.distanceXY pos.1 pos.2 ≤ SENSING_RADIUS then
          some p else old) = none := h
      by_cases hc : pointIsReadable tpmd p ∧ p.distanceXY pos.1 pos.2 ≤ SENSING_RADIUS
      · rw [if_pos hc] at h
        exact Option.noConfusion h
      · rw [if_neg hc] at h
        exact h

/-- Witness for C10: a readable in-range point is taken; a missing point
leaves the previous match (here `some pApexOld`) unchanged, not `none`. -/
theorem updateDataIfWithinRange_only_sets_readable_witness :
    updateDataIfWithinRange 100 (0, 0) (some pApexOld) (some pGroundNew) = some pGroundNew ∧
    updateDataIfWithinRange 100 (0, 0) (some pApexOld) none = some pApexOld :=
  ⟨(updateDataIfWithinRange_only_sets_readable 100 (0, 0) (some pApexOld) (some pGroundNew)).1
      pGroundNew rfl (Or.inr (Or.inl rfl))
      (by norm_num [dist_pGroundNew_origin, SENSING_RADIUS]),
   (updateDataIfWithinRange_only_sets_readable 100 (0, 0) (some pApexOld) none).2.1
      fun p hp => Option.noConfusion hp⟩
